import Mathlib

/-!
Shallow embedding of the core of the Animal_Management frontend: the REST client
(`src/services/api.ts`) and the facility store (`src/context/FacilityContext.tsx`),
together with the breeding dashboard statistics (`src/components/BreedingManagement.tsx`).

Entity types follow `src/types` (the exported interfaces).  Machine numbers that are
only carried as inert payload data (weights, quantities, costs) are modelled as `Int`;
no arithmetic is performed on them anywhere in scope.  Times are modelled as integer
milliseconds since the epoch, matching the JavaScript `Date.getTime()` value.

Network calls are modelled by passing the settled result of the server promise
(`Except String α`: `.ok` for a resolved call, `.error msg` for a rejected one) into
the pure state-transition function that embeds the store operation.  Each operation
returns the new local state together with the outcome it propagates to its caller.
-/

namespace AnimalManagement

/-! ## Entity types (`src/types`) -/

inductive Gender
  | Male
  | Female
  | Unknown
deriving DecidableEq

inductive AnimalStatus
  | Healthy
  | UnderCare
  | Quarantine
  | Breeding
  | Inactive
deriving DecidableEq

structure Animal where
  id : String
  name : String
  species : String
  breed : String
  age : Nat
  gender : Gender
  weightKg : Option Int
  status : AnimalStatus
  notes : Option String
deriving DecidableEq

inductive HealthRecordType
  | Vaccination
  | Treatment
  | Checkup
  | Medication
  | Surgery
deriving DecidableEq

inductive HealthRecordStatus
  | Scheduled
  | Ongoing
  | Completed
deriving DecidableEq

structure HealthRecord where
  id : String
  animalId : String
  recordType : HealthRecordType
  description : String
  date : String
  veterinarian : String
  status : HealthRecordStatus
  nextDueDate : Option String
  notes : Option String
deriving DecidableEq

inductive FeedingStatus
  | Pending
  | Completed
  | Missed
deriving DecidableEq

inductive FeedingFrequency
  | Daily
  | TwiceDaily
  | Weekly
  | Custom
deriving DecidableEq

structure FeedingTask where
  id : String
  animalId : String
  animalName : String
  foodType : String
  quantity : String
  time : String
  frequency : FeedingFrequency
  status : FeedingStatus
  startDate : String
deriving DecidableEq

inductive BreedingStatus
  | Pregnant
  | Delivered
  | Unsuccessful
deriving DecidableEq

structure BreedingRecord where
  id : String
  motherId : String
  fatherId : String
  matingDate : String
  dueDate : String
  expectedLitter : Option String
  actualLitter : Option String
  status : BreedingStatus
  notes : Option String
deriving DecidableEq

inductive InventoryCategory
  | Food
  | Medicine
  | Equipment
  | Supplies
deriving DecidableEq

inductive InventoryStatus
  | InStock
  | LowStock
  | OutOfStock
deriving DecidableEq

structure InventoryItem where
  id : String
  name : String
  category : InventoryCategory
  quantity : Int
  unit : String
  reorderLevel : Int
  costPerUnit : Int
  status : InventoryStatus
deriving DecidableEq

inductive StaffStatus
  | Active
  | OnLeave
  | Inactive
deriving DecidableEq

inductive StaffRole
  | Veterinarian
  | Caretaker
  | Manager
  | Assistant
  | Support
deriving DecidableEq

structure StaffMember where
  id : String
  name : String
  role : StaffRole
  email : String
  phone : String
  status : StaffStatus
  joined : String
  notes : Option String
deriving DecidableEq

structure NotificationPreferences where
  lowStockAlerts : Bool
  healthReminders : Bool
  breedingAlerts : Bool
  feedingReminders : Bool
  emailSummary : Bool
deriving DecidableEq

structure FacilitySettings where
  facilityName : String
  registrationNumber : String
  address : String
  phone : String
  email : String
  operatingHours : String
  notificationPreferences : NotificationPreferences
  lastBackup : String
deriving DecidableEq

inductive TimeRange
  | Daily
  | Weekly
  | Monthly
  | Yearly
deriving DecidableEq

inductive ReportType
  | All
  | Animals
  | Health
  | Inventory
  | Breeding
  | Financial
deriving DecidableEq

structure ReportFilters where
  timeRange : TimeRange
  reportType : ReportType
deriving DecidableEq

/-! ## REST client (`src/services/api.ts`, `fetchAPI`) -/

/-- The settled body of an HTTP response, as seen through `response.json()`:
either the body is not parseable JSON (`json()` rejects), or it parses to a
value together with the string value of its `error` member when present. -/
inductive JsonBody (β : Type)
  | malformed
  | parsed (value : β) (errorField : Option String)
deriving DecidableEq

structure HttpResponse (β : Type) where
  ok : Bool
  status : Nat
  body : JsonBody β
deriving DecidableEq

/-- Outcome of `fetchAPI`: the promise resolves with the parsed body, rejects
with an `Error` carrying a message, or (2xx with an unreadable body) rejects
with the parse error raised by the JSON engine itself. -/
inductive FetchResult (β : Type)
  | resolved (value : β)
  | rejected (message : String)
  | parseFailed
deriving DecidableEq

/-- The function `fetchAPI` from `src/services/api.ts`.  On a non-2xx response the body is
parsed, a parse failure being replaced by a fallback object whose `error` member is
the generic message; the thrown message is `error.error` or else the status message, where `||`
skips an absent or empty (falsy) `error` field. -/
def fetchAPI {β : Type} (r : HttpResponse β) : FetchResult β :=
  if r.ok then
    match r.body with
    | .parsed v _ => .resolved v
    | .malformed => .parseFailed
  else
    let errorField : Option String :=
      match r.body with
      | .malformed => some "Network error"
      | .parsed _ ef => ef
    match errorField with
    | some s => if s = "" then .rejected ("HTTP error! status: " ++ toString r.status) else .rejected s
    | none => .rejected ("HTTP error! status: " ++ toString r.status)

/-! ## Facility store state (`src/context/FacilityContext.tsx`) -/

structure FacilityState where
  animals : List Animal
  healthRecords : List HealthRecord
  feedingTasks : List FeedingTask
  breedingRecords : List BreedingRecord
  inventory : List InventoryItem
  staff : List StaffMember
  settings : FacilitySettings
  reportFilters : ReportFilters
deriving DecidableEq

/-- The built-in default settings from the `useState` initializer
(FacilityContext.tsx lines 93-108); `lastBackup` is `new Date().toISOString()`,
so it is a parameter here. -/
def defaultSettings (lastBackup : String) : FacilitySettings :=
  { facilityName := "Green Valley Animal Care Center"
    registrationNumber := "FAC-2023-001"
    address := "123 Animal Care Lane, Green Valley, CA 90210"
    phone := "(555) 123-4567"
    email := "contact@greenvalley.com"
    operatingHours := "Monday - Saturday: 8:00 AM - 6:00 PM"
    notificationPreferences :=
      { lowStockAlerts := true
        healthReminders := true
        breedingAlerts := true
        feedingReminders := true
        emailSummary := false }
    lastBackup := lastBackup }

def initialReportFilters : ReportFilters :=
  { timeRange := .Monthly, reportType := .All }

/-! ## Create / update payload types (the `Omit` / `Partial` aliases,
FacilityContext.tsx lines 22-38) -/

structure CreateAnimalInput where
  name : String
  species : String
  breed : String
  age : Nat
  gender : Gender
  weightKg : Option Int
  status : AnimalStatus
  notes : Option String
deriving DecidableEq

structure UpdateAnimalInput where
  name : Option String
  species : Option String
  breed : Option String
  age : Option Nat
  gender : Option Gender
  weightKg : Option (Option Int)
  status : Option AnimalStatus
  notes : Option (Option String)
deriving DecidableEq

structure CreateHealthRecordInput where
  animalId : String
  recordType : HealthRecordType
  description : String
  date : String
  veterinarian : String
  status : HealthRecordStatus
  nextDueDate : Option String
  notes : Option String
deriving DecidableEq

structure UpdateHealthRecordInput where
  animalId : Option String
  recordType : Option HealthRecordType
  description : Option String
  date : Option String
  veterinarian : Option String
  status : Option HealthRecordStatus
  nextDueDate : Option (Option String)
  notes : Option (Option String)
deriving DecidableEq

structure CreateFeedingTaskInput where
  animalId : String
  animalName : String
  foodType : String
  quantity : String
  time : String
  frequency : FeedingFrequency
  status : FeedingStatus
  startDate : String
deriving DecidableEq

structure UpdateFeedingTaskInput where
  animalId : Option String
  animalName : Option String
  foodType : Option String
  quantity : Option String
  time : Option String
  frequency : Option FeedingFrequency
  status : Option FeedingStatus
  startDate : Option String
deriving DecidableEq

structure CreateBreedingRecordInput where
  motherId : String
  fatherId : String
  matingDate : String
  dueDate : String
  expectedLitter : Option String
  actualLitter : Option String
  status : BreedingStatus
  notes : Option String
deriving DecidableEq

structure UpdateBreedingRecordInput where
  motherId : Option String
  fatherId : Option String
  matingDate : Option String
  dueDate : Option String
  expectedLitter : Option (Option String)
  actualLitter : Option (Option String)
  status : Option BreedingStatus
  notes : Option (Option String)
deriving DecidableEq

/-- The `Omit` of InventoryItem over id and status: inventory creation also omits the
server-derived `status`. -/
structure CreateInventoryItemInput where
  name : String
  category : InventoryCategory
  quantity : Int
  unit : String
  reorderLevel : Int
  costPerUnit : Int
deriving DecidableEq

structure UpdateInventoryItemInput where
  name : Option String
  category : Option InventoryCategory
  quantity : Option Int
  unit : Option String
  reorderLevel : Option Int
  costPerUnit : Option Int
  status : Option InventoryStatus
deriving DecidableEq

structure CreateStaffMemberInput where
  name : String
  role : StaffRole
  email : String
  phone : String
  status : StaffStatus
  joined : String
  notes : Option String
deriving DecidableEq

structure UpdateStaffMemberInput where
  name : Option String
  role : Option StaffRole
  email : Option String
  phone : Option String
  status : Option StaffStatus
  joined : Option String
  notes : Option (Option String)
deriving DecidableEq

structure UpdateSettingsInput where
  facilityName : Option String
  registrationNumber : Option String
  address : Option String
  phone : Option String
  email : Option String
  operatingHours : Option String
  notificationPreferences : Option NotificationPreferences
  lastBackup : Option String
deriving DecidableEq

/-- The `\x7b message \x7d` body returned by the DELETE endpoints. -/
structure DeleteResponse where
  message : String
deriving DecidableEq

/-! ## Initial bulk load (`loadData`, FacilityContext.tsx lines 113-144)

All seven calls are issued via `Promise.all`, each wrapped in its own
`.catch` (`() => []` for the six lists, `() => null` for settings), so the
joint promise never rejects; `settingsData` is applied only when non-null;
the `finally` block always ends the loading flag.  The returned `Bool` is the
value of `loading` after the load completes. -/
def loadData (s : FacilityState)
    (animalsR : Except String (List Animal))
    (healthR : Except String (List HealthRecord))
    (feedingR : Except String (List FeedingTask))
    (breedingR : Except String (List BreedingRecord))
    (inventoryR : Except String (List InventoryItem))
    (staffR : Except String (List StaffMember))
    (settingsR : Except String FacilitySettings) : FacilityState × Bool :=
  ({ animals := match animalsR with | .ok l => l | .error _ => []
     healthRecords := match healthR with | .ok l => l | .error _ => []
     feedingTasks := match feedingR with | .ok l => l | .error _ => []
     breedingRecords := match breedingR with | .ok l => l | .error _ => []
     inventory := match inventoryR with | .ok l => l | .error _ => []
     staff := match staffR with | .ok l => l | .error _ => []
     settings := match settingsR with | .ok st => st | .error _ => s.settings
     reportFilters := s.reportFilters }, false)

/-! ## CRUD operations (FacilityContext.tsx lines 146-337)

Each operation awaits the REST call (its settled result is the `resp`
argument), applies the local update only on success, and on failure
propagates the error to the caller (`throw error` after logging). -/

def addAnimal (s : FacilityState) (_payload : CreateAnimalInput)
    (resp : Except String Animal) : FacilityState × Except String Unit :=
  match resp with
  | .ok newAnimal => ({ s with animals := s.animals ++ [newAnimal] }, .ok ())
  | .error e => (s, .error e)

def updateAnimal (s : FacilityState) (id : String) (_payload : UpdateAnimalInput)
    (resp : Except String Animal) : FacilityState × Except String Unit :=
  match resp with
  | .ok updated =>
      ({ s with animals := s.animals.map (fun animal => if animal.id = id then updated else animal) }, .ok ())
  | .error e => (s, .error e)

def deleteAnimal (s : FacilityState) (id : String)
    (resp : Except String DeleteResponse) : FacilityState × Except String Unit :=
  match resp with
  | .ok _ =>
      ({ s with
          animals := s.animals.filter (fun animal => animal.id != id)
          healthRecords := s.healthRecords.filter (fun record => record.animalId != id)
          feedingTasks := s.feedingTasks.filter (fun task => task.animalId != id)
          breedingRecords :=
            s.breedingRecords.filter (fun record => record.motherId != id && record.fatherId != id) },
        .ok ())
  | .error e => (s, .error e)

def addHealthRecord (s : FacilityState) (_payload : CreateHealthRecordInput)
    (resp : Except String HealthRecord) : FacilityState × Except String Unit :=
  match resp with
  | .ok newRecord => ({ s with healthRecords := s.healthRecords ++ [newRecord] }, .ok ())
  | .error e => (s, .error e)

def updateHealthRecord (s : FacilityState) (id : String) (_payload : UpdateHealthRecordInput)
    (resp : Except String HealthRecord) : FacilityState × Except String Unit :=
  match resp with
  | .ok updated =>
      ({ s with healthRecords := s.healthRecords.map (fun record => if record.id = id then updated else record) }, .ok ())
  | .error e => (s, .error e)

def deleteHealthRecord (s : FacilityState) (id : String)
    (resp : Except String DeleteResponse) : FacilityState × Except String Unit :=
  match resp with
  | .ok _ => ({ s with healthRecords := s.healthRecords.filter (fun record => record.id != id) }, .ok ())
  | .error e => (s, .error e)

def addFeedingTask (s : FacilityState) (_payload : CreateFeedingTaskInput)
    (resp : Except String FeedingTask) : FacilityState × Except String Unit :=
  match resp with
  | .ok newTask => ({ s with feedingTasks := s.feedingTasks ++ [newTask] }, .ok ())
  | .error e => (s, .error e)

def updateFeedingTask (s : FacilityState) (id : String) (_payload : UpdateFeedingTaskInput)
    (resp : Except String FeedingTask) : FacilityState × Except String Unit :=
  match resp with
  | .ok updated =>
      ({ s with feedingTasks := s.feedingTasks.map (fun task => if task.id = id then updated else task) }, .ok ())
  | .error e => (s, .error e)

def deleteFeedingTask (s : FacilityState) (id : String)
    (resp : Except String DeleteResponse) : FacilityState × Except String Unit :=
  match resp with
  | .ok _ => ({ s with feedingTasks := s.feedingTasks.filter (fun task => task.id != id) }, .ok ())
  | .error e => (s, .error e)

def addBreedingRecord (s : FacilityState) (_payload : CreateBreedingRecordInput)
    (resp : Except String BreedingRecord) : FacilityState × Except String Unit :=
  match resp with
  | .ok newRecord => ({ s with breedingRecords := s.breedingRecords ++ [newRecord] }, .ok ())
  | .error e => (s, .error e)

def updateBreedingRecord (s : FacilityState) (id : String) (_payload : UpdateBreedingRecordInput)
    (resp : Except String BreedingRecord) : FacilityState × Except String Unit :=
  match resp with
  | .ok updated =>
      ({ s with breedingRecords := s.breedingRecords.map (fun record => if record.id = id then updated else record) }, .ok ())
  | .error e => (s, .error e)

def deleteBreedingRecord (s : FacilityState) (id : String)
    (resp : Except String DeleteResponse) : FacilityState × Except String Unit :=
  match resp with
  | .ok _ => ({ s with breedingRecords := s.breedingRecords.filter (fun record => record.id != id) }, .ok ())
  | .error e => (s, .error e)

def addInventoryItem (s : FacilityState) (_payload : CreateInventoryItemInput)
    (resp : Except String InventoryItem) : FacilityState × Except String Unit :=
  match resp with
  | .ok newItem => ({ s with inventory := s.inventory ++ [newItem] }, .ok ())
  | .error e => (s, .error e)

def updateInventoryItem (s : FacilityState) (id : String) (_payload : UpdateInventoryItemInput)
    (resp : Except String InventoryItem) : FacilityState × Except String Unit :=
  match resp with
  | .ok updated =>
      ({ s with inventory := s.inventory.map (fun item => if item.id = id then updated else item) }, .ok ())
  | .error e => (s, .error e)

def deleteInventoryItem (s : FacilityState) (id : String)
    (resp : Except String DeleteResponse) : FacilityState × Except String Unit :=
  match resp with
  | .ok _ => ({ s with inventory := s.inventory.filter (fun item => item.id != id) }, .ok ())
  | .error e => (s, .error e)

def addStaffMember (s : FacilityState) (_payload : CreateStaffMemberInput)
    (resp : Except String StaffMember) : FacilityState × Except String Unit :=
  match resp with
  | .ok newMember => ({ s with staff := s.staff ++ [newMember] }, .ok ())
  | .error e => (s, .error e)

def updateStaffMember (s : FacilityState) (id : String) (_payload : UpdateStaffMemberInput)
    (resp : Except String StaffMember) : FacilityState × Except String Unit :=
  match resp with
  | .ok updated =>
      ({ s with staff := s.staff.map (fun member => if member.id = id then updated else member) }, .ok ())
  | .error e => (s, .error e)

def deleteStaffMember (s : FacilityState) (id : String)
    (resp : Except String DeleteResponse) : FacilityState × Except String Unit :=
  match resp with
  | .ok _ => ({ s with staff := s.staff.filter (fun member => member.id != id) }, .ok ())
  | .error e => (s, .error e)

def updateSettings (s : FacilityState) (_payload : UpdateSettingsInput)
    (resp : Except String FacilitySettings) : FacilityState × Except String Unit :=
  match resp with
  | .ok updated => ({ s with settings := updated }, .ok ())
  | .error e => (s, .error e)

/-! ## Notification preference toggle (FacilityContext.tsx lines 339-349) -/

inductive PrefKey
  | lowStockAlerts
  | healthReminders
  | breedingAlerts
  | feedingReminders
  | emailSummary
deriving DecidableEq

def getPref (p : NotificationPreferences) : PrefKey → Bool
  | .lowStockAlerts => p.lowStockAlerts
  | .healthReminders => p.healthReminders
  | .breedingAlerts => p.breedingAlerts
  | .feedingReminders => p.feedingReminders
  | .emailSummary => p.emailSummary

def setPref (p : NotificationPreferences) (k : PrefKey) (v : Bool) : NotificationPreferences :=
  match k with
  | .lowStockAlerts => { p with lowStockAlerts := v }
  | .healthReminders => { p with healthReminders := v }
  | .breedingAlerts => { p with breedingAlerts := v }
  | .feedingReminders => { p with feedingReminders := v }
  | .emailSummary => { p with emailSummary := v }

/-- The body `updateNotificationPreference` sends to `PUT /settings`:
`currentSettings = \x7b ...settings \x7d` followed by
`currentSettings.notificationPreferences[key] = value`, i.e. the whole current
settings object with the one flag set. -/
def notifPrefRequestBody (st : FacilitySettings) (k : PrefKey) (v : Bool) : FacilitySettings :=
  { st with notificationPreferences := setPref st.notificationPreferences k v }

/-- The operation `updateNotificationPreference`.  The spread `\x7b ...settings \x7d` is shallow:
`currentSettings.notificationPreferences` aliases the nested object held in the
React state, so the in-place flag assignment mutates the settings held by the store
before the REST call is awaited.  On failure the store is therefore left with
the flag already flipped; on success the server response replaces settings. -/
def updateNotificationPreference (s : FacilityState) (k : PrefKey) (v : Bool)
    (resp : Except String FacilitySettings) : FacilityState × Except String Unit :=
  let mutated := { s with settings := notifPrefRequestBody s.settings k v }
  match resp with
  | .ok updated => ({ mutated with settings := updated }, .ok ())
  | .error e => (mutated, .error e)

/-! ## Breeding dashboard statistics (`BreedingManagement.tsx`, lines 97-116)

Dates are abstracted by a parse function `parseMs : String → Option Int`
standing for `new Date(str).getTime()` in integer milliseconds (`none` for an
Invalid Date, whose `NaN` makes both comparisons false).  `days = diff / 86400000`
is compared with floating-point division in the source; because `14` is exactly
`1209600000 / 86400000` and the quotient of distinct integers differs from `14`
by far more than one ulp, the comparisons `days >= 0 && days <= 14` agree with
the integer comparisons `0 <= diff && diff <= 1209600000` used here. -/
def breedingDueSoonCount (parseMs : String → Option Int) (now : Int)
    (records : List BreedingRecord) : Nat :=
  let active := records.filter (fun record => decide (record.status = BreedingStatus.Pregnant))
  let dueSoon := active.filter (fun record =>
    if record.dueDate = "" then false
    else
      match parseMs record.dueDate with
      | none => false
      | some t =>
        let diff := t - now
        decide (0 ≤ diff) && decide (diff ≤ 14 * 86400000))
  dueSoon.length

/-! ## Server-side update merge, modelled from the spec -/

/-- Modelled from the spec: the backend (its Flask source is not part of the
frontend tree) answers `PUT /animals/id` with the updated entity, i.e. the
stored entity with exactly the supplied partial fields replaced — "`update(id,
partialFields)` followed by reading the entity by `id` reflects exactly the
partial fields changed; unspecified fields are unchanged." -/
def applyAnimalUpdate (old : Animal) (p : UpdateAnimalInput) : Animal :=
  { id := old.id
    name := p.name.getD old.name
    species := p.species.getD old.species
    breed := p.breed.getD old.breed
    age := p.age.getD old.age
    gender := p.gender.getD old.gender
    weightKg := p.weightKg.getD old.weightKg
    status := p.status.getD old.status
    notes := p.notes.getD old.notes }

/-- Modelled from the spec: server merge for `PUT /health-records/id`. -/
def applyHealthRecordUpdate (old : HealthRecord) (p : UpdateHealthRecordInput) : HealthRecord :=
  { id := old.id
    animalId := p.animalId.getD old.animalId
    recordType := p.recordType.getD old.recordType
    description := p.description.getD old.description
    date := p.date.getD old.date
    veterinarian := p.veterinarian.getD old.veterinarian
    status := p.status.getD old.status
    nextDueDate := p.nextDueDate.getD old.nextDueDate
    notes := p.notes.getD old.notes }

/-- Modelled from the spec: server merge for `PUT /feeding-tasks/id`. -/
def applyFeedingTaskUpdate (old : FeedingTask) (p : UpdateFeedingTaskInput) : FeedingTask :=
  { id := old.id
    animalId := p.animalId.getD old.animalId
    animalName := p.animalName.getD old.animalName
    foodType := p.foodType.getD old.foodType
    quantity := p.quantity.getD old.quantity
    time := p.time.getD old.time
    frequency := p.frequency.getD old.frequency
    status := p.status.getD old.status
    startDate := p.startDate.getD old.startDate }

/-- Modelled from the spec: server merge for `PUT /breeding-records/id`. -/
def applyBreedingRecordUpdate (old : BreedingRecord) (p : UpdateBreedingRecordInput) : BreedingRecord :=
  { id := old.id
    motherId := p.motherId.getD old.motherId
    fatherId := p.fatherId.getD old.fatherId
    matingDate := p.matingDate.getD old.matingDate
    dueDate := p.dueDate.getD old.dueDate
    expectedLitter := p.expectedLitter.getD old.expectedLitter
    actualLitter := p.actualLitter.getD old.actualLitter
    status := p.status.getD old.status
    notes := p.notes.getD old.notes }

/-- Modelled from the spec: server merge for `PUT /inventory/id`; the status
field is recomputed server-side from quantity vs. reorder level, so it is a
parameter supplied by the instantiation, never taken from the client payload. -/
def applyInventoryItemUpdate (old : InventoryItem) (p : UpdateInventoryItemInput)
    (serverStatus : InventoryStatus) : InventoryItem :=
  { id := old.id
    name := p.name.getD old.name
    category := p.category.getD old.category
    quantity := p.quantity.getD old.quantity
    unit := p.unit.getD old.unit
    reorderLevel := p.reorderLevel.getD old.reorderLevel
    costPerUnit := p.costPerUnit.getD old.costPerUnit
    status := serverStatus }

/-- Modelled from the spec: server merge for `PUT /staff/id`. -/
def applyStaffMemberUpdate (old : StaffMember) (p : UpdateStaffMemberInput) : StaffMember :=
  { id := old.id
    name := p.name.getD old.name
    role := p.role.getD old.role
    email := p.email.getD old.email
    phone := p.phone.getD old.phone
    status := p.status.getD old.status
    joined := p.joined.getD old.joined
    notes := p.notes.getD old.notes }

/-! ## Sample data for concrete instantiations -/

def sampleAnimal : Animal :=
  { id := "A001", name := "Rex", species := "Dog", breed := "Labrador", age := 3,
    gender := .Male, weightKg := none, status := .Healthy, notes := none }

def sampleAnimal2 : Animal :=
  { id := "A002", name := "Bella", species := "Dog", breed := "Beagle", age := 2,
    gender := .Female, weightKg := some 11, status := .Healthy, notes := none }

def sampleHealthRecord : HealthRecord :=
  { id := "H001", animalId := "A001", recordType := .Checkup, description := "Annual checkup",
    date := "2024-01-05", veterinarian := "Dr. Lee", status := .Completed,
    nextDueDate := none, notes := none }

def sampleFeedingTask : FeedingTask :=
  { id := "F001", animalId := "A001", animalName := "Rex", foodType := "Kibble",
    quantity := "2 cups", time := "08:00", frequency := .Daily, status := .Pending,
    startDate := "2024-01-01" }

def sampleBreedingRecord : BreedingRecord :=
  { id := "B001", motherId := "A002", fatherId := "A001", matingDate := "2024-04-01",
    dueDate := "2024-06-10", expectedLitter := none, actualLitter := none,
    status := .Pregnant, notes := none }

def sampleInventoryItem : InventoryItem :=
  { id := "I001", name := "Dog food", category := .Food, quantity := 20, unit := "kg",
    reorderLevel := 5, costPerUnit := 3, status := .InStock }

def sampleStaffMember : StaffMember :=
  { id := "S001", name := "Sam", role := .Caretaker, email := "sam@greenvalley.com",
    phone := "555-0100", status := .Active, joined := "2023-05-01", notes := none }

def sampleState : FacilityState :=
  { animals := [sampleAnimal, sampleAnimal2]
    healthRecords := [sampleHealthRecord]
    feedingTasks := [sampleFeedingTask]
    breedingRecords := [sampleBreedingRecord]
    inventory := [sampleInventoryItem]
    staff := [sampleStaffMember]
    settings := defaultSettings "2024-01-01T00:00:00.000Z"
    reportFilters := initialReportFilters }

def sampleCreateAnimal : CreateAnimalInput :=
  { name := "Rex", species := "Dog", breed := "Labrador", age := 3,
    gender := .Male, weightKg := none, status := .Healthy, notes := none }

def sampleUpdateAnimal : UpdateAnimalInput :=
  { name := none, species := none, breed := none, age := some 4,
    gender := none, weightKg := none, status := none, notes := none }

/-! ## Generic list lemmas used by the store proofs -/

theorem map_replace_eq_self {α : Type} (l : List α) (idOf : α → String) (id : String) (u : α)
    (h : ∀ x ∈ l, idOf x ≠ id) : l.map (fun x => if idOf x = id then u else x) = l := by
  induction l with
  | nil => rfl
  | cons a t ih =>
      simp only [List.map_cons]
      rw [if_neg (h a (by simp)), ih (fun x hx => h x (by simp [hx]))]

theorem find?_map_replace {α : Type} (idOf : α → String) (id : String) (u : α)
    (l : List α) (old : α) (hu : idOf u = id)
    (hf : l.find? (fun x => idOf x == id) = some old) :
    (l.map (fun x => if idOf x = id then u else x)).find? (fun x => idOf x == id) = some u := by
  rw [List.find?_map]
  have hpred : ((fun x => idOf x == id) ∘ fun x => if idOf x = id then u else x) =
      (fun x => idOf x == id) := by
    funext x
    by_cases h : idOf x = id
    · simp [h, hu]
    · simp [h]
  rw [hpred, hf]
  have hold : idOf old = id := by
    have := List.find?_some hf
    simpa using this
  simp [hold]

/-! ## Claim theorems -/

/-- C1: a successful `deleteAnimal(id)` removes the animal with that id from the
animals collection and removes every HealthRecord/FeedingTask whose `animalId`
equals `id` and every BreedingRecord whose `motherId` or `fatherId` equals `id`;
every other entry of those four collections, and the inventory, staff, and
settings state, is unchanged. -/
theorem deleteAnimal_cascades_and_frames (s : FacilityState) (id : String) (m : DeleteResponse) :
    (deleteAnimal s id (.ok m)).2 = .ok () ∧
    (∀ a : Animal, a ∈ (deleteAnimal s id (.ok m)).1.animals ↔ a ∈ s.animals ∧ a.id ≠ id) ∧
    (∀ r : HealthRecord,
      r ∈ (deleteAnimal s id (.ok m)).1.healthRecords ↔ r ∈ s.healthRecords ∧ r.animalId ≠ id) ∧
    (∀ t : FeedingTask,
      t ∈ (deleteAnimal s id (.ok m)).1.feedingTasks ↔ t ∈ s.feedingTasks ∧ t.animalId ≠ id) ∧
    (∀ b : BreedingRecord,
      b ∈ (deleteAnimal s id (.ok m)).1.breedingRecords ↔
        b ∈ s.breedingRecords ∧ b.motherId ≠ id ∧ b.fatherId ≠ id) ∧
    (deleteAnimal s id (.ok m)).1.inventory = s.inventory ∧
    (deleteAnimal s id (.ok m)).1.staff = s.staff ∧
    (deleteAnimal s id (.ok m)).1.settings = s.settings ∧
    (deleteAnimal s id (.ok m)).1.reportFilters = s.reportFilters := by
  refine ⟨rfl, ?_, ?_, ?_, ?_, rfl, rfl, rfl, rfl⟩ <;>
    · intro x
      simp [deleteAnimal, List.mem_filter, and_assoc]

/-- C1 witness: deleting `A001` from the sample state clears its health record,
feeding task, and the breeding record naming it as father, while the inventory
is untouched. -/
theorem deleteAnimal_cascades_and_frames_sample :
    (¬ (sampleAnimal ∈ (deleteAnimal sampleState "A001" (.ok ⟨"deleted"⟩)).1.animals)) ∧
    (deleteAnimal sampleState "A001" (.ok ⟨"deleted"⟩)).1.inventory = sampleState.inventory := by
  constructor
  · intro hmem
    have h := ((deleteAnimal_cascades_and_frames sampleState "A001" ⟨"deleted"⟩).2.1 sampleAnimal).mp hmem
    exact h.2 (by decide)
  · exact (deleteAnimal_cascades_and_frames sampleState "A001" ⟨"deleted"⟩).2.2.2.2.2.1

/-- C10: every successful store operation preserves relative display order —
each of the six adds appends at the tail, each of the six updates keeps every
entity at its index (replacing exactly the matching one), each of the six
deletes (including the animal cascade) removes entries without reordering the
remainder, and the two settings operations leave every collection exactly as
it was. -/
theorem store_ops_preserve_order (s : FacilityState) (id : String) (m : DeleteResponse)
    (pa : CreateAnimalInput) (a : Animal) (ua : UpdateAnimalInput) (a2 : Animal)
    (ph : CreateHealthRecordInput) (h : HealthRecord) (uh : UpdateHealthRecordInput)
    (h2 : HealthRecord)
    (pf : CreateFeedingTaskInput) (f : FeedingTask) (uf : UpdateFeedingTaskInput)
    (f2 : FeedingTask)
    (pb : CreateBreedingRecordInput) (b : BreedingRecord) (ub : UpdateBreedingRecordInput)
    (b2 : BreedingRecord)
    (pi : CreateInventoryItemInput) (iv : InventoryItem) (ui : UpdateInventoryItemInput)
    (iv2 : InventoryItem)
    (ps : CreateStaffMemberInput) (sm : StaffMember) (us : UpdateStaffMemberInput)
    (sm2 : StaffMember)
    (pset : UpdateSettingsInput) (st : FacilitySettings) (k : PrefKey) (v : Bool) :
    (addAnimal s pa (.ok a)).1.animals = s.animals ++ [a] ∧
    (addHealthRecord s ph (.ok h)).1.healthRecords = s.healthRecords ++ [h] ∧
    (addFeedingTask s pf (.ok f)).1.feedingTasks = s.feedingTasks ++ [f] ∧
    (addBreedingRecord s pb (.ok b)).1.breedingRecords = s.breedingRecords ++ [b] ∧
    (addInventoryItem s pi (.ok iv)).1.inventory = s.inventory ++ [iv] ∧
    (addStaffMember s ps (.ok sm)).1.staff = s.staff ++ [sm] ∧
    (updateAnimal s id ua (.ok a2)).1.animals.length = s.animals.length ∧
    (∀ i : Nat,
      (updateAnimal s id ua (.ok a2)).1.animals[i]? =
        (s.animals[i]?).map (fun x => if x.id = id then a2 else x)) ∧
    (updateHealthRecord s id uh (.ok h2)).1.healthRecords.length = s.healthRecords.length ∧
    (∀ i : Nat,
      (updateHealthRecord s id uh (.ok h2)).1.healthRecords[i]? =
        (s.healthRecords[i]?).map (fun x => if x.id = id then h2 else x)) ∧
    (updateFeedingTask s id uf (.ok f2)).1.feedingTasks.length = s.feedingTasks.length ∧
    (∀ i : Nat,
      (updateFeedingTask s id uf (.ok f2)).1.feedingTasks[i]? =
        (s.feedingTasks[i]?).map (fun x => if x.id = id then f2 else x)) ∧
    (updateBreedingRecord s id ub (.ok b2)).1.breedingRecords.length =
      s.breedingRecords.length ∧
    (∀ i : Nat,
      (updateBreedingRecord s id ub (.ok b2)).1.breedingRecords[i]? =
        (s.breedingRecords[i]?).map (fun x => if x.id = id then b2 else x)) ∧
    (updateInventoryItem s id ui (.ok iv2)).1.inventory.length = s.inventory.length ∧
    (∀ i : Nat,
      (updateInventoryItem s id ui (.ok iv2)).1.inventory[i]? =
        (s.inventory[i]?).map (fun x => if x.id = id then iv2 else x)) ∧
    (updateStaffMember s id us (.ok sm2)).1.staff.length = s.staff.length ∧
    (∀ i : Nat,
      (updateStaffMember s id us (.ok sm2)).1.staff[i]? =
        (s.staff[i]?).map (fun x => if x.id = id then sm2 else x)) ∧
    List.Sublist (deleteAnimal s id (.ok m)).1.animals s.animals ∧
    List.Sublist (deleteAnimal s id (.ok m)).1.healthRecords s.healthRecords ∧
    List.Sublist (deleteAnimal s id (.ok m)).1.feedingTasks s.feedingTasks ∧
    List.Sublist (deleteAnimal s id (.ok m)).1.breedingRecords s.breedingRecords ∧
    List.Sublist (deleteHealthRecord s id (.ok m)).1.healthRecords s.healthRecords ∧
    List.Sublist (deleteFeedingTask s id (.ok m)).1.feedingTasks s.feedingTasks ∧
    List.Sublist (deleteBreedingRecord s id (.ok m)).1.breedingRecords s.breedingRecords ∧
    List.Sublist (deleteInventoryItem s id (.ok m)).1.inventory s.inventory ∧
    List.Sublist (deleteStaffMember s id (.ok m)).1.staff s.staff ∧
    (updateSettings s pset (.ok st)).1.animals = s.animals ∧
    (updateSettings s pset (.ok st)).1.healthRecords = s.healthRecords ∧
    (updateSettings s pset (.ok st)).1.feedingTasks = s.feedingTasks ∧
    (updateSettings s pset (.ok st)).1.breedingRecords = s.breedingRecords ∧
    (updateSettings s pset (.ok st)).1.inventory = s.inventory ∧
    (updateSettings s pset (.ok st)).1.staff = s.staff ∧
    (updateNotificationPreference s k v (.ok st)).1.animals = s.animals ∧
    (updateNotificationPreference s k v (.ok st)).1.healthRecords = s.healthRecords ∧
    (updateNotificationPreference s k v (.ok st)).1.feedingTasks = s.feedingTasks ∧
    (updateNotificationPreference s k v (.ok st)).1.breedingRecords = s.breedingRecords ∧
    (updateNotificationPreference s k v (.ok st)).1.inventory = s.inventory ∧
    (updateNotificationPreference s k v (.ok st)).1.staff = s.staff := by
  refine ⟨rfl, rfl, rfl, rfl, rfl, rfl,
    by simp [updateAnimal], ?_, by simp [updateHealthRecord], ?_,
    by simp [updateFeedingTask], ?_, by simp [updateBreedingRecord], ?_,
    by simp [updateInventoryItem], ?_, by simp [updateStaffMember], ?_,
    ?_, ?_, ?_, ?_, ?_, ?_, ?_, ?_, ?_,
    rfl, rfl, rfl, rfl, rfl, rfl, rfl, rfl, rfl, rfl, rfl, rfl⟩
  · intro i
    simp [updateAnimal]
  · intro i
    simp [updateHealthRecord]
  · intro i
    simp [updateFeedingTask]
  · intro i
    simp [updateBreedingRecord]
  · intro i
    simp [updateInventoryItem]
  · intro i
    simp [updateStaffMember]
  all_goals
    first
      | (simp only [deleteAnimal]; exact List.filter_sublist _)
      | (simp only [deleteHealthRecord]; exact List.filter_sublist _)
      | (simp only [deleteFeedingTask]; exact List.filter_sublist _)
      | (simp only [deleteBreedingRecord]; exact List.filter_sublist _)
      | (simp only [deleteInventoryItem]; exact List.filter_sublist _)
      | (simp only [deleteStaffMember]; exact List.filter_sublist _)

/-- C2, exhibited at a failing input: the claim says a rejected REST call leaves
the entire local state unchanged, but `updateNotificationPreference` mutates the
nested notification-preference object (shared with the live state through the
shallow `\x7b ...settings \x7d` spread) before awaiting the call, so on failure
the flag is already flipped even though the error is propagated. -/
theorem updateNotificationPreference_mutates_on_failure :
    (updateNotificationPreference sampleState .lowStockAlerts false (.error "boom")).2 =
      .error "boom" ∧
    sampleState.settings.notificationPreferences.lowStockAlerts = true ∧
    (updateNotificationPreference sampleState .lowStockAlerts false
      (.error "boom")).1.settings.notificationPreferences.lowStockAlerts = false ∧
    (updateNotificationPreference sampleState .lowStockAlerts false (.error "boom")).1 ≠
      sampleState := by
  refine ⟨rfl, rfl, rfl, ?_⟩
  intro hcontra
  have h := congrArg (fun st => st.settings.notificationPreferences.lowStockAlerts) hcontra
  simp [updateNotificationPreference, notifPrefRequestBody, setPref, sampleState,
    defaultSettings] at h

/-- C3 counterexample: the claim makes the rejection message the `error` field
of the body whenever that field is present, but for a present-but-empty field the
source expression `error.error` with its falsy fallback goes to the status message. -/
theorem fetchAPI_empty_error_field :
    fetchAPI { ok := false, status := 400, body := .parsed () (some "") } ≠
      FetchResult.rejected "" ∧
    fetchAPI { ok := false, status := 400, body := .parsed () (some "") } =
      FetchResult.rejected "HTTP error! status: 400" := by
  constructor
  · decide
  · rfl

/-- C3 as amended: a non-2xx response always rejects and a 2xx response with a
well-formed body resolves with the parsed JSON; on rejection the message is the
error field of the body if present and non-empty, else — for an unreadable body —
the generic `Network error` message, otherwise the status message
`HTTP error! status: ` followed by the numeric status code. -/
theorem fetchAPI_contract {β : Type} (r : HttpResponse β) :
    (∀ v ef, r.ok = true → r.body = .parsed v ef → fetchAPI r = .resolved v) ∧
    (r.ok = false →
      (∃ msg, fetchAPI r = .rejected msg) ∧
      (∀ v es, r.body = .parsed v (some es) → es ≠ "" → fetchAPI r = .rejected es) ∧
      (r.body = .malformed → fetchAPI r = .rejected "Network error") ∧
      (∀ v, r.body = .parsed v none →
        fetchAPI r = .rejected ("HTTP error! status: " ++ toString r.status)) ∧
      (∀ v, r.body = .parsed v (some "") →
        fetchAPI r = .rejected ("HTTP error! status: " ++ toString r.status))) := by
  constructor
  · intro v ef hok hbody
    simp [fetchAPI, hok, hbody]
  · intro hok
    refine ⟨?_, ?_, ?_, ?_, ?_⟩
    · cases hbody : r.body with
      | malformed => exact ⟨"Network error", by simp [fetchAPI, hok, hbody]⟩
      | parsed v ef =>
          cases ef with
          | none =>
              exact ⟨"HTTP error! status: " ++ toString r.status, by simp [fetchAPI, hok, hbody]⟩
          | some es =>
              by_cases hes : es = ""
              · exact ⟨"HTTP error! status: " ++ toString r.status,
                  by simp [fetchAPI, hok, hbody, hes]⟩
              · exact ⟨es, by simp [fetchAPI, hok, hbody, hes]⟩
    · intro v es hbody hes
      simp [fetchAPI, hok, hbody, hes]
    · intro hbody
      simp [fetchAPI, hok, hbody]
    · intro v hbody
      simp [fetchAPI, hok, hbody]
    · intro v hbody
      simp [fetchAPI, hok, hbody]

/-- C3 witness: a 404 whose body parses with `error: "Animal not found"` rejects
with that message, and a 500 with an unreadable body rejects with the generic
message. -/
theorem fetchAPI_contract_sample :
    fetchAPI { ok := false, status := 404, body := JsonBody.parsed () (some "Animal not found") } =
      FetchResult.rejected "Animal not found" ∧
    fetchAPI { ok := false, status := 500, body := (JsonBody.malformed : JsonBody Unit) } =
      FetchResult.rejected "Network error" := by
  constructor
  · exact (fetchAPI_contract
      { ok := false, status := 404, body := JsonBody.parsed () (some "Animal not found") }).2
      rfl |>.2.1 () "Animal not found" rfl (by decide)
  · exact (fetchAPI_contract
      { ok := false, status := 500, body := (JsonBody.malformed : JsonBody Unit) }).2
      rfl |>.2.2.1 rfl

/-- C4: initialization treats each of the seven calls independently — a
rejected list call yields the empty collection, a resolved one yields exactly
the returned list, the settings record keeps the built-in default exactly when
the settings call rejected, and loading always ends. -/
theorem loadData_degrades_gracefully (s : FacilityState)
    (aR : Except String (List Animal)) (hR : Except String (List HealthRecord))
    (fR : Except String (List FeedingTask)) (bR : Except String (List BreedingRecord))
    (iR : Except String (List InventoryItem)) (stR : Except String (List StaffMember))
    (seR : Except String FacilitySettings) :
    (loadData s aR hR fR bR iR stR seR).2 = false ∧
    (∀ e, aR = .error e → (loadData s aR hR fR bR iR stR seR).1.animals = []) ∧
    (∀ l, aR = .ok l → (loadData s aR hR fR bR iR stR seR).1.animals = l) ∧
    (∀ e, hR = .error e → (loadData s aR hR fR bR iR stR seR).1.healthRecords = []) ∧
    (∀ l, hR = .ok l → (loadData s aR hR fR bR iR stR seR).1.healthRecords = l) ∧
    (∀ e, fR = .error e → (loadData s aR hR fR bR iR stR seR).1.feedingTasks = []) ∧
    (∀ l, fR = .ok l → (loadData s aR hR fR bR iR stR seR).1.feedingTasks = l) ∧
    (∀ e, bR = .error e → (loadData s aR hR fR bR iR stR seR).1.breedingRecords = []) ∧
    (∀ l, bR = .ok l → (loadData s aR hR fR bR iR stR seR).1.breedingRecords = l) ∧
    (∀ e, iR = .error e → (loadData s aR hR fR bR iR stR seR).1.inventory = []) ∧
    (∀ l, iR = .ok l → (loadData s aR hR fR bR iR stR seR).1.inventory = l) ∧
    (∀ e, stR = .error e → (loadData s aR hR fR bR iR stR seR).1.staff = []) ∧
    (∀ l, stR = .ok l → (loadData s aR hR fR bR iR stR seR).1.staff = l) ∧
    (∀ e, seR = .error e → (loadData s aR hR fR bR iR stR seR).1.settings = s.settings) ∧
    (∀ st, seR = .ok st → (loadData s aR hR fR bR iR stR seR).1.settings = st) := by
  refine ⟨rfl, ?_, ?_, ?_, ?_, ?_, ?_, ?_, ?_, ?_, ?_, ?_, ?_, ?_, ?_⟩ <;>
    · intro x hx
      simp [loadData, hx]

/-- C4 witness: with only the health-record call rejecting, the other
collections are populated, health records are empty, and loading has ended. -/
theorem loadData_degrades_gracefully_sample :
    (loadData sampleState (.ok [sampleAnimal]) (.error "ECONNREFUSED")
      (.ok [sampleFeedingTask]) (.ok [sampleBreedingRecord]) (.ok [sampleInventoryItem])
      (.ok [sampleStaffMember]) (.ok (defaultSettings "t1"))).1.healthRecords = [] ∧
    (loadData sampleState (.ok [sampleAnimal]) (.error "ECONNREFUSED")
      (.ok [sampleFeedingTask]) (.ok [sampleBreedingRecord]) (.ok [sampleInventoryItem])
      (.ok [sampleStaffMember]) (.ok (defaultSettings "t1"))).1.animals = [sampleAnimal] ∧
    (loadData sampleState (.ok [sampleAnimal]) (.error "ECONNREFUSED")
      (.ok [sampleFeedingTask]) (.ok [sampleBreedingRecord]) (.ok [sampleInventoryItem])
      (.ok [sampleStaffMember]) (.ok (defaultSettings "t1"))).2 = false := by
  refine ⟨?_, ?_, ?_⟩
  · exact (loadData_degrades_gracefully sampleState (.ok [sampleAnimal]) (.error "ECONNREFUSED")
      (.ok [sampleFeedingTask]) (.ok [sampleBreedingRecord]) (.ok [sampleInventoryItem])
      (.ok [sampleStaffMember]) (.ok (defaultSettings "t1"))).2.2.2.1 "ECONNREFUSED" rfl
  · exact (loadData_degrades_gracefully sampleState (.ok [sampleAnimal]) (.error "ECONNREFUSED")
      (.ok [sampleFeedingTask]) (.ok [sampleBreedingRecord]) (.ok [sampleInventoryItem])
      (.ok [sampleStaffMember]) (.ok (defaultSettings "t1"))).2.2.1 [sampleAnimal] rfl
  · exact (loadData_degrades_gracefully sampleState (.ok [sampleAnimal]) (.error "ECONNREFUSED")
      (.ok [sampleFeedingTask]) (.ok [sampleBreedingRecord]) (.ok [sampleInventoryItem])
      (.ok [sampleStaffMember]) (.ok (defaultSettings "t1"))).1

/-- C5: for every collection, a successful add appends exactly the
server-returned entity at the end — afterwards the collection has one more
entry, every previously present entity is unchanged at its previous position,
and the new last entry is the returned entity. -/
theorem add_appends_server_entity (s : FacilityState)
    (pa : CreateAnimalInput) (a : Animal)
    (ph : CreateHealthRecordInput) (h : HealthRecord)
    (pf : CreateFeedingTaskInput) (f : FeedingTask)
    (pb : CreateBreedingRecordInput) (b : BreedingRecord)
    (pi : CreateInventoryItemInput) (iv : InventoryItem)
    (ps : CreateStaffMemberInput) (sm : StaffMember) :
    ((addAnimal s pa (.ok a)).1.animals = s.animals ++ [a] ∧
     (addAnimal s pa (.ok a)).1.animals.length = s.animals.length + 1 ∧
     (∀ i, i < s.animals.length → (addAnimal s pa (.ok a)).1.animals[i]? = s.animals[i]?) ∧
     (addAnimal s pa (.ok a)).1.animals[s.animals.length]? = some a ∧
     (addAnimal s pa (.ok a)).2 = .ok ()) ∧
    ((addHealthRecord s ph (.ok h)).1.healthRecords = s.healthRecords ++ [h] ∧
     (addHealthRecord s ph (.ok h)).1.healthRecords.length = s.healthRecords.length + 1 ∧
     (∀ i, i < s.healthRecords.length →
       (addHealthRecord s ph (.ok h)).1.healthRecords[i]? = s.healthRecords[i]?) ∧
     (addHealthRecord s ph (.ok h)).1.healthRecords[s.healthRecords.length]? = some h ∧
     (addHealthRecord s ph (.ok h)).2 = .ok ()) ∧
    ((addFeedingTask s pf (.ok f)).1.feedingTasks = s.feedingTasks ++ [f] ∧
     (addFeedingTask s pf (.ok f)).1.feedingTasks.length = s.feedingTasks.length + 1 ∧
     (∀ i, i < s.feedingTasks.length →
       (addFeedingTask s pf (.ok f)).1.feedingTasks[i]? = s.feedingTasks[i]?) ∧
     (addFeedingTask s pf (.ok f)).1.feedingTasks[s.feedingTasks.length]? = some f ∧
     (addFeedingTask s pf (.ok f)).2 = .ok ()) ∧
    ((addBreedingRecord s pb (.ok b)).1.breedingRecords = s.breedingRecords ++ [b] ∧
     (addBreedingRecord s pb (.ok b)).1.breedingRecords.length = s.breedingRecords.length + 1 ∧
     (∀ i, i < s.breedingRecords.length →
       (addBreedingRecord s pb (.ok b)).1.breedingRecords[i]? = s.breedingRecords[i]?) ∧
     (addBreedingRecord s pb (.ok b)).1.breedingRecords[s.breedingRecords.length]? = some b ∧
     (addBreedingRecord s pb (.ok b)).2 = .ok ()) ∧
    ((addInventoryItem s pi (.ok iv)).1.inventory = s.inventory ++ [iv] ∧
     (addInventoryItem s pi (.ok iv)).1.inventory.length = s.inventory.length + 1 ∧
     (∀ i, i < s.inventory.length →
       (addInventoryItem s pi (.ok iv)).1.inventory[i]? = s.inventory[i]?) ∧
     (addInventoryItem s pi (.ok iv)).1.inventory[s.inventory.length]? = some iv ∧
     (addInventoryItem s pi (.ok iv)).2 = .ok ()) ∧
    ((addStaffMember s ps (.ok sm)).1.staff = s.staff ++ [sm] ∧
     (addStaffMember s ps (.ok sm)).1.staff.length = s.staff.length + 1 ∧
     (∀ i, i < s.staff.length → (addStaffMember s ps (.ok sm)).1.staff[i]? = s.staff[i]?) ∧
     (addStaffMember s ps (.ok sm)).1.staff[s.staff.length]? = some sm ∧
     (addStaffMember s ps (.ok sm)).2 = .ok ()) := by
  refine ⟨⟨rfl, by simp [addAnimal], ?_, ?_, rfl⟩, ⟨rfl, by simp [addHealthRecord], ?_, ?_, rfl⟩,
    ⟨rfl, by simp [addFeedingTask], ?_, ?_, rfl⟩, ⟨rfl, by simp [addBreedingRecord], ?_, ?_, rfl⟩,
    ⟨rfl, by simp [addInventoryItem], ?_, ?_, rfl⟩, ⟨rfl, by simp [addStaffMember], ?_, ?_, rfl⟩⟩ <;>
    first
      | (intro i hi
         simp only [addAnimal, addHealthRecord, addFeedingTask, addBreedingRecord,
           addInventoryItem, addStaffMember]
         exact List.getElem?_append_left hi)
      | (simp only [addAnimal, addHealthRecord, addFeedingTask, addBreedingRecord,
           addInventoryItem, addStaffMember]
         exact List.getElem?_concat_length _ _)

/-- C5 witness: adding the server-returned `A001` animal to the sample state
appends it at index 2 and keeps index 0 unchanged. -/
theorem add_appends_server_entity_sample :
    (addAnimal sampleState sampleCreateAnimal (.ok sampleAnimal)).1.animals[0]? =
      sampleState.animals[0]? ∧
    (addAnimal sampleState sampleCreateAnimal (.ok sampleAnimal)).1.animals[2]? =
      some sampleAnimal := by
  constructor
  · exact ((add_appends_server_entity sampleState sampleCreateAnimal sampleAnimal
      ⟨"A001", .Checkup, "", "", "", .Completed, none, none⟩ sampleHealthRecord
      ⟨"A001", "Rex", "Kibble", "2 cups", "08:00", .Daily, .Pending, "2024-01-01"⟩
      sampleFeedingTask
      ⟨"A002", "A001", "2024-04-01", "2024-06-10", none, none, .Pregnant, none⟩
      sampleBreedingRecord
      ⟨"Dog food", .Food, 20, "kg", 5, 3⟩ sampleInventoryItem
      ⟨"Sam", .Caretaker, "sam@greenvalley.com", "555-0100", .Active, "2023-05-01", none⟩
      sampleStaffMember).1.2.2.1 0 (by decide))
  · exact (add_appends_server_entity sampleState sampleCreateAnimal sampleAnimal
      ⟨"A001", .Checkup, "", "", "", .Completed, none, none⟩ sampleHealthRecord
      ⟨"A001", "Rex", "Kibble", "2 cups", "08:00", .Daily, .Pending, "2024-01-01"⟩
      sampleFeedingTask
      ⟨"A002", "A001", "2024-04-01", "2024-06-10", none, none, .Pregnant, none⟩
      sampleBreedingRecord
      ⟨"Dog food", .Food, 20, "kg", 5, 3⟩ sampleInventoryItem
      ⟨"Sam", .Caretaker, "sam@greenvalley.com", "555-0100", .Active, "2023-05-01", none⟩
      sampleStaffMember).1.2.2.2.1

/-- C9: for every collection, a successful update whose id is not present
leaves the whole local state unchanged, and update never changes a
length of a collection. -/
theorem update_absent_id_no_change (s : FacilityState) (id : String)
    (pa : UpdateAnimalInput) (a : Animal)
    (ph : UpdateHealthRecordInput) (h : HealthRecord)
    (pf : UpdateFeedingTaskInput) (f : FeedingTask)
    (pb : UpdateBreedingRecordInput) (b : BreedingRecord)
    (pi : UpdateInventoryItemInput) (iv : InventoryItem)
    (ps : UpdateStaffMemberInput) (sm : StaffMember) :
    ((∀ x ∈ s.animals, x.id ≠ id) → (updateAnimal s id pa (.ok a)).1 = s) ∧
    (updateAnimal s id pa (.ok a)).1.animals.length = s.animals.length ∧
    ((∀ x ∈ s.healthRecords, x.id ≠ id) → (updateHealthRecord s id ph (.ok h)).1 = s) ∧
    (updateHealthRecord s id ph (.ok h)).1.healthRecords.length = s.healthRecords.length ∧
    ((∀ x ∈ s.feedingTasks, x.id ≠ id) → (updateFeedingTask s id pf (.ok f)).1 = s) ∧
    (updateFeedingTask s id pf (.ok f)).1.feedingTasks.length = s.feedingTasks.length ∧
    ((∀ x ∈ s.breedingRecords, x.id ≠ id) → (updateBreedingRecord s id pb (.ok b)).1 = s) ∧
    (updateBreedingRecord s id pb (.ok b)).1.breedingRecords.length = s.breedingRecords.length ∧
    ((∀ x ∈ s.inventory, x.id ≠ id) → (updateInventoryItem s id pi (.ok iv)).1 = s) ∧
    (updateInventoryItem s id pi (.ok iv)).1.inventory.length = s.inventory.length ∧
    ((∀ x ∈ s.staff, x.id ≠ id) → (updateStaffMember s id ps (.ok sm)).1 = s) ∧
    (updateStaffMember s id ps (.ok sm)).1.staff.length = s.staff.length := by
  refine ⟨?_, by simp [updateAnimal], ?_, by simp [updateHealthRecord],
    ?_, by simp [updateFeedingTask], ?_, by simp [updateBreedingRecord],
    ?_, by simp [updateInventoryItem], ?_, by simp [updateStaffMember]⟩
  · intro hne
    simp only [updateAnimal]
    rw [map_replace_eq_self s.animals (fun x => x.id) id a hne]
  · intro hne
    simp only [updateHealthRecord]
    rw [map_replace_eq_self s.healthRecords (fun x => x.id) id h hne]
  · intro hne
    simp only [updateFeedingTask]
    rw [map_replace_eq_self s.feedingTasks (fun x => x.id) id f hne]
  · intro hne
    simp only [updateBreedingRecord]
    rw [map_replace_eq_self s.breedingRecords (fun x => x.id) id b hne]
  · intro hne
    simp only [updateInventoryItem]
    rw [map_replace_eq_self s.inventory (fun x => x.id) id iv hne]
  · intro hne
    simp only [updateStaffMember]
    rw [map_replace_eq_self s.staff (fun x => x.id) id sm hne]

/-- C9 witness: updating the absent id `Z999` leaves the sample state exactly
as it was. -/
theorem update_absent_id_no_change_sample :
    (updateAnimal sampleState "Z999" sampleUpdateAnimal (.ok sampleAnimal)).1 = sampleState := by
  exact (update_absent_id_no_change sampleState "Z999" sampleUpdateAnimal sampleAnimal
    ⟨none, none, none, none, none, none, none, none⟩ sampleHealthRecord
    ⟨none, none, none, none, none, none, none, none⟩ sampleFeedingTask
    ⟨none, none, none, none, none, none, none, none⟩ sampleBreedingRecord
    ⟨none, none, none, none, none, none, none⟩ sampleInventoryItem
    ⟨none, none, none, none, none, none, none⟩ sampleStaffMember).1 (by decide)

/-- C6: for every collection, a successful `update(id, payload)` replaces the
matching local entity with the server-returned full entity at its existing
position; entities with a different id, the length and order of the collection, and
all other collections are unchanged; and when the server merges the partial
payload into the stored entity (modelled by the `apply…Update` functions),
reading the entity by id afterwards reflects exactly the partial fields
changed, unspecified fields being unchanged. -/
theorem update_replaces_by_id :
    (∀ (s : FacilityState) (id : String) (p : UpdateAnimalInput) (u old : Animal),
      s.animals.find? (fun x => x.id == id) = some old →
      ((updateAnimal s id p (.ok u)).1.animals.length = s.animals.length ∧
       (∀ (i : Nat) (x : Animal), s.animals[i]? = some x → x.id ≠ id →
         (updateAnimal s id p (.ok u)).1.animals[i]? = some x) ∧
       (∀ (i : Nat) (x : Animal), s.animals[i]? = some x → x.id = id →
         (updateAnimal s id p (.ok u)).1.animals[i]? = some u) ∧
       (updateAnimal s id p (.ok u)).1.healthRecords = s.healthRecords ∧
       (updateAnimal s id p (.ok u)).1.feedingTasks = s.feedingTasks ∧
       (updateAnimal s id p (.ok u)).1.breedingRecords = s.breedingRecords ∧
       (updateAnimal s id p (.ok u)).1.inventory = s.inventory ∧
       (updateAnimal s id p (.ok u)).1.staff = s.staff ∧
       (updateAnimal s id p (.ok u)).1.settings = s.settings ∧
       (u = applyAnimalUpdate old p →
         (updateAnimal s id p (.ok u)).1.animals.find? (fun x => x.id == id) = some u ∧
         u.id = old.id ∧
         u.name = p.name.getD old.name ∧
         u.species = p.species.getD old.species ∧
         u.breed = p.breed.getD old.breed ∧
         u.age = p.age.getD old.age ∧
         u.gender = p.gender.getD old.gender ∧
         u.weightKg = p.weightKg.getD old.weightKg ∧
         u.status = p.status.getD old.status ∧
         u.notes = p.notes.getD old.notes))) ∧
    (∀ (s : FacilityState) (id : String) (p : UpdateHealthRecordInput) (u old : HealthRecord),
      s.healthRecords.find? (fun x => x.id == id) = some old →
      ((updateHealthRecord s id p (.ok u)).1.healthRecords.length = s.healthRecords.length ∧
       (∀ (i : Nat) (x : HealthRecord), s.healthRecords[i]? = some x → x.id ≠ id →
         (updateHealthRecord s id p (.ok u)).1.healthRecords[i]? = some x) ∧
       (∀ (i : Nat) (x : HealthRecord), s.healthRecords[i]? = some x → x.id = id →
         (updateHealthRecord s id p (.ok u)).1.healthRecords[i]? = some u) ∧
       (updateHealthRecord s id p (.ok u)).1.animals = s.animals ∧
       (updateHealthRecord s id p (.ok u)).1.feedingTasks = s.feedingTasks ∧
       (updateHealthRecord s id p (.ok u)).1.breedingRecords = s.breedingRecords ∧
       (updateHealthRecord s id p (.ok u)).1.inventory = s.inventory ∧
       (updateHealthRecord s id p (.ok u)).1.staff = s.staff ∧
       (updateHealthRecord s id p (.ok u)).1.settings = s.settings ∧
       (u = applyHealthRecordUpdate old p →
         (updateHealthRecord s id p (.ok u)).1.healthRecords.find? (fun x => x.id == id) =
           some u ∧
         u.id = old.id ∧
         u.animalId = p.animalId.getD old.animalId ∧
         u.status = p.status.getD old.status))) ∧
    (∀ (s : FacilityState) (id : String) (p : UpdateFeedingTaskInput) (u old : FeedingTask),
      s.feedingTasks.find? (fun x => x.id == id) = some old →
      ((updateFeedingTask s id p (.ok u)).1.feedingTasks.length = s.feedingTasks.length ∧
       (∀ (i : Nat) (x : FeedingTask), s.feedingTasks[i]? = some x → x.id ≠ id →
         (updateFeedingTask s id p (.ok u)).1.feedingTasks[i]? = some x) ∧
       (∀ (i : Nat) (x : FeedingTask), s.feedingTasks[i]? = some x → x.id = id →
         (updateFeedingTask s id p (.ok u)).1.feedingTasks[i]? = some u) ∧
       (updateFeedingTask s id p (.ok u)).1.animals = s.animals ∧
       (updateFeedingTask s id p (.ok u)).1.healthRecords = s.healthRecords ∧
       (updateFeedingTask s id p (.ok u)).1.breedingRecords = s.breedingRecords ∧
       (updateFeedingTask s id p (.ok u)).1.inventory = s.inventory ∧
       (updateFeedingTask s id p (.ok u)).1.staff = s.staff ∧
       (updateFeedingTask s id p (.ok u)).1.settings = s.settings ∧
       (u = applyFeedingTaskUpdate old p →
         (updateFeedingTask s id p (.ok u)).1.feedingTasks.find? (fun x => x.id == id) =
           some u ∧
         u.id = old.id ∧
         u.foodType = p.foodType.getD old.foodType ∧
         u.status = p.status.getD old.status))) ∧
    (∀ (s : FacilityState) (id : String) (p : UpdateBreedingRecordInput) (u old : BreedingRecord),
      s.breedingRecords.find? (fun x => x.id == id) = some old →
      ((updateBreedingRecord s id p (.ok u)).1.breedingRecords.length = s.breedingRecords.length ∧
       (∀ (i : Nat) (x : BreedingRecord), s.breedingRecords[i]? = some x → x.id ≠ id →
         (updateBreedingRecord s id p (.ok u)).1.breedingRecords[i]? = some x) ∧
       (∀ (i : Nat) (x : BreedingRecord), s.breedingRecords[i]? = some x → x.id = id →
         (updateBreedingRecord s id p (.ok u)).1.breedingRecords[i]? = some u) ∧
       (updateBreedingRecord s id p (.ok u)).1.animals = s.animals ∧
       (updateBreedingRecord s id p (.ok u)).1.healthRecords = s.healthRecords ∧
       (updateBreedingRecord s id p (.ok u)).1.feedingTasks = s.feedingTasks ∧
       (updateBreedingRecord s id p (.ok u)).1.inventory = s.inventory ∧
       (updateBreedingRecord s id p (.ok u)).1.staff = s.staff ∧
       (updateBreedingRecord s id p (.ok u)).1.settings = s.settings ∧
       (u = applyBreedingRecordUpdate old p →
         (updateBreedingRecord s id p (.ok u)).1.breedingRecords.find? (fun x => x.id == id) =
           some u ∧
         u.id = old.id ∧
         u.status = p.status.getD old.status ∧
         u.actualLitter = p.actualLitter.getD old.actualLitter))) ∧
    (∀ (s : FacilityState) (id : String) (p : UpdateInventoryItemInput) (u old : InventoryItem)
       (serverStatus : InventoryStatus),
      s.inventory.find? (fun x => x.id == id) = some old →
      ((updateInventoryItem s id p (.ok u)).1.inventory.length = s.inventory.length ∧
       (∀ (i : Nat) (x : InventoryItem), s.inventory[i]? = some x → x.id ≠ id →
         (updateInventoryItem s id p (.ok u)).1.inventory[i]? = some x) ∧
       (∀ (i : Nat) (x : InventoryItem), s.inventory[i]? = some x → x.id = id →
         (updateInventoryItem s id p (.ok u)).1.inventory[i]? = some u) ∧
       (updateInventoryItem s id p (.ok u)).1.animals = s.animals ∧
       (updateInventoryItem s id p (.ok u)).1.healthRecords = s.healthRecords ∧
       (updateInventoryItem s id p (.ok u)).1.feedingTasks = s.feedingTasks ∧
       (updateInventoryItem s id p (.ok u)).1.breedingRecords = s.breedingRecords ∧
       (updateInventoryItem s id p (.ok u)).1.staff = s.staff ∧
       (updateInventoryItem s id p (.ok u)).1.settings = s.settings ∧
       (u = applyInventoryItemUpdate old p serverStatus →
         (updateInventoryItem s id p (.ok u)).1.inventory.find? (fun x => x.id == id) =
           some u ∧
         u.id = old.id ∧
         u.quantity = p.quantity.getD old.quantity ∧
         u.status = serverStatus))) ∧
    (∀ (s : FacilityState) (id : String) (p : UpdateStaffMemberInput) (u old : StaffMember),
      s.staff.find? (fun x => x.id == id) = some old →
      ((updateStaffMember s id p (.ok u)).1.staff.length = s.staff.length ∧
       (∀ (i : Nat) (x : StaffMember), s.staff[i]? = some x → x.id ≠ id →
         (updateStaffMember s id p (.ok u)).1.staff[i]? = some x) ∧
       (∀ (i : Nat) (x : StaffMember), s.staff[i]? = some x → x.id = id →
         (updateStaffMember s id p (.ok u)).1.staff[i]? = some u) ∧
       (updateStaffMember s id p (.ok u)).1.animals = s.animals ∧
       (updateStaffMember s id p (.ok u)).1.healthRecords = s.healthRecords ∧
       (updateStaffMember s id p (.ok u)).1.feedingTasks = s.feedingTasks ∧
       (updateStaffMember s id p (.ok u)).1.breedingRecords = s.breedingRecords ∧
       (updateStaffMember s id p (.ok u)).1.inventory = s.inventory ∧
       (updateStaffMember s id p (.ok u)).1.settings = s.settings ∧
       (u = applyStaffMemberUpdate old p →
         (updateStaffMember s id p (.ok u)).1.staff.find? (fun x => x.id == id) = some u ∧
         u.id = old.id ∧
         u.role = p.role.getD old.role ∧
         u.status = p.status.getD old.status))) := by
  refine ⟨?_, ?_, ?_, ?_, ?_, ?_⟩
  · intro s id p u old hf
    refine ⟨by simp [updateAnimal], ?_, ?_, rfl, rfl, rfl, rfl, rfl, rfl, ?_⟩
    · intro i x hx hne
      simp [updateAnimal, hx, hne]
    · intro i x hx heq
      simp [updateAnimal, hx, heq]
    · intro hu
      subst hu
      have hold : old.id = id := by simpa using List.find?_some hf
      refine ⟨?_, rfl, rfl, rfl, rfl, rfl, rfl, rfl, rfl, rfl⟩
      simp only [updateAnimal]
      exact find?_map_replace (fun x => x.id) id (applyAnimalUpdate old p) s.animals old hold hf
  · intro s id p u old hf
    refine ⟨by simp [updateHealthRecord], ?_, ?_, rfl, rfl, rfl, rfl, rfl, rfl, ?_⟩
    · intro i x hx hne
      simp [updateHealthRecord, hx, hne]
    · intro i x hx heq
      simp [updateHealthRecord, hx, heq]
    · intro hu
      subst hu
      have hold : old.id = id := by simpa using List.find?_some hf
      refine ⟨?_, rfl, rfl, rfl⟩
      simp only [updateHealthRecord]
      exact find?_map_replace (fun x => x.id) id (applyHealthRecordUpdate old p) s.healthRecords old hold hf
  · intro s id p u old hf
    refine ⟨by simp [updateFeedingTask], ?_, ?_, rfl, rfl, rfl, rfl, rfl, rfl, ?_⟩
    · intro i x hx hne
      simp [updateFeedingTask, hx, hne]
    · intro i x hx heq
      simp [updateFeedingTask, hx, heq]
    · intro hu
      subst hu
      have hold : old.id = id := by simpa using List.find?_some hf
      refine ⟨?_, rfl, rfl, rfl⟩
      simp only [updateFeedingTask]
      exact find?_map_replace (fun x => x.id) id (applyFeedingTaskUpdate old p) s.feedingTasks old hold hf
  · intro s id p u old hf
    refine ⟨by simp [updateBreedingRecord], ?_, ?_, rfl, rfl, rfl, rfl, rfl, rfl, ?_⟩
    · intro i x hx hne
      simp [updateBreedingRecord, hx, hne]
    · intro i x hx heq
      simp [updateBreedingRecord, hx, heq]
    · intro hu
      subst hu
      have hold : old.id = id := by simpa using List.find?_some hf
      refine ⟨?_, rfl, rfl, rfl⟩
      simp only [updateBreedingRecord]
      exact find?_map_replace (fun x => x.id) id (applyBreedingRecordUpdate old p) s.breedingRecords old hold hf
  · intro s id p u old serverStatus hf
    refine ⟨by simp [updateInventoryItem], ?_, ?_, rfl, rfl, rfl, rfl, rfl, rfl, ?_⟩
    · intro i x hx hne
      simp [updateInventoryItem, hx, hne]
    · intro i x hx heq
      simp [updateInventoryItem, hx, heq]
    · intro hu
      subst hu
      have hold : old.id = id := by simpa using List.find?_some hf
      refine ⟨?_, rfl, rfl, rfl⟩
      simp only [updateInventoryItem]
      exact find?_map_replace (fun x => x.id) id (applyInventoryItemUpdate old p serverStatus) s.inventory old hold hf
  · intro s id p u old hf
    refine ⟨by simp [updateStaffMember], ?_, ?_, rfl, rfl, rfl, rfl, rfl, rfl, ?_⟩
    · intro i x hx hne
      simp [updateStaffMember, hx, hne]
    · intro i x hx heq
      simp [updateStaffMember, hx, heq]
    · intro hu
      subst hu
      have hold : old.id = id := by simpa using List.find?_some hf
      refine ⟨?_, rfl, rfl, rfl⟩
      simp only [updateStaffMember]
      exact find?_map_replace (fun x => x.id) id (applyStaffMemberUpdate old p) s.staff old hold hf

/-- C6 witness: updating animal `A001` in the sample state with a payload that
changes only the age yields, on read-back by id, the entity with age 4 and the
name unchanged. -/
theorem update_replaces_by_id_sample :
    (updateAnimal sampleState "A001" sampleUpdateAnimal
        (.ok (applyAnimalUpdate sampleAnimal sampleUpdateAnimal))).1.animals.find?
        (fun x => x.id == "A001") =
      some (applyAnimalUpdate sampleAnimal sampleUpdateAnimal) ∧
    (applyAnimalUpdate sampleAnimal sampleUpdateAnimal).age = 4 ∧
    (applyAnimalUpdate sampleAnimal sampleUpdateAnimal).name = "Rex" := by
  refine ⟨?_, rfl, rfl⟩
  exact ((update_replaces_by_id.1 sampleState "A001" sampleUpdateAnimal
    (applyAnimalUpdate sampleAnimal sampleUpdateAnimal) sampleAnimal rfl).2.2.2.2.2.2.2.2.2
    rfl).1

/-- C7: a successful `updateNotificationPreference(key, value)` sends one
settings update whose body is the whole current settings object with only that
flag set to the given value, and (the server answering with the updated
settings object) the stored settings afterwards are exactly the prior
settings with only that flag changed; the collections are untouched. -/
theorem updateNotificationPreference_success (s : FacilityState) (k : PrefKey) (v : Bool) :
    getPref (notifPrefRequestBody s.settings k v).notificationPreferences k = v ∧
    (∀ k', k' ≠ k →
      getPref (notifPrefRequestBody s.settings k v).notificationPreferences k' =
        getPref s.settings.notificationPreferences k') ∧
    (notifPrefRequestBody s.settings k v).facilityName = s.settings.facilityName ∧
    (notifPrefRequestBody s.settings k v).registrationNumber = s.settings.registrationNumber ∧
    (notifPrefRequestBody s.settings k v).address = s.settings.address ∧
    (notifPrefRequestBody s.settings k v).phone = s.settings.phone ∧
    (notifPrefRequestBody s.settings k v).email = s.settings.email ∧
    (notifPrefRequestBody s.settings k v).operatingHours = s.settings.operatingHours ∧
    (notifPrefRequestBody s.settings k v).lastBackup = s.settings.lastBackup ∧
    (updateNotificationPreference s k v (.ok (notifPrefRequestBody s.settings k v))).1.settings =
      notifPrefRequestBody s.settings k v ∧
    (updateNotificationPreference s k v (.ok (notifPrefRequestBody s.settings k v))).2 =
      .ok () ∧
    (updateNotificationPreference s k v (.ok (notifPrefRequestBody s.settings k v))).1.animals =
      s.animals ∧
    (updateNotificationPreference s k v
      (.ok (notifPrefRequestBody s.settings k v))).1.healthRecords = s.healthRecords ∧
    (updateNotificationPreference s k v
      (.ok (notifPrefRequestBody s.settings k v))).1.feedingTasks = s.feedingTasks ∧
    (updateNotificationPreference s k v
      (.ok (notifPrefRequestBody s.settings k v))).1.breedingRecords = s.breedingRecords ∧
    (updateNotificationPreference s k v
      (.ok (notifPrefRequestBody s.settings k v))).1.inventory = s.inventory ∧
    (updateNotificationPreference s k v
      (.ok (notifPrefRequestBody s.settings k v))).1.staff = s.staff := by
  refine ⟨?_, ?_, rfl, rfl, rfl, rfl, rfl, rfl, rfl, rfl, rfl, rfl, rfl, rfl, rfl, rfl, rfl⟩
  · cases k <;> rfl
  · intro k' hne
    cases k <;> cases k' <;> simp_all [getPref, setPref, notifPrefRequestBody]

/-- C7 witness: toggling `lowStockAlerts` to false in the sample state flips
exactly that flag (email summary is untouched) and stores the request body. -/
theorem updateNotificationPreference_success_sample :
    getPref (notifPrefRequestBody sampleState.settings .lowStockAlerts
      false).notificationPreferences .lowStockAlerts = false ∧
    getPref (notifPrefRequestBody sampleState.settings .lowStockAlerts
        false).notificationPreferences .emailSummary =
      getPref sampleState.settings.notificationPreferences .emailSummary := by
  constructor
  · exact (updateNotificationPreference_success sampleState .lowStockAlerts false).1
  · exact (updateNotificationPreference_success sampleState .lowStockAlerts false).2.1
      .emailSummary (by decide)

/-- C8: the breeding "due soon" statistic counts exactly the records whose
status is Pregnant and whose due date parses to a time at or after `now` and
at most 14 days (in milliseconds) after `now`; records with no parseable due
date are not counted. -/
theorem breedingDueSoonCount_characterization (parseMs : String → Option Int) (now : Int)
    (records : List BreedingRecord) (hempty : parseMs "" = none) :
    breedingDueSoonCount parseMs now records =
      (records.filter (fun record =>
        decide (record.status = BreedingStatus.Pregnant) &&
        (match parseMs record.dueDate with
         | none => false
         | some t => decide (now ≤ t) && decide (t ≤ now + 14 * 86400000)))).length := by
  have hdef : breedingDueSoonCount parseMs now records =
      ((records.filter (fun record => decide (record.status = BreedingStatus.Pregnant))).filter
        (fun record =>
          if record.dueDate = "" then false
          else
            match parseMs record.dueDate with
            | none => false
            | some t => decide (0 ≤ t - now) && decide (t - now ≤ 14 * 86400000))).length := rfl
  rw [hdef, List.filter_filter]
  congr 1
  apply List.filter_congr
  intro r _
  rw [Bool.and_comm]
  congr 1
  by_cases hd : r.dueDate = ""
  · simp [hd, hempty]
  · rw [if_neg hd]
    cases hmt : parseMs r.dueDate with
    | none => simp [hmt]
    | some t =>
        simp only [hmt]
        congr 1 <;> · rw [decide_eq_decide]; omega

/-- C8 witness: with a parse function sending the sample due date to one day
after `now = 0`, the sample breeding record is counted once. -/
theorem breedingDueSoonCount_characterization_sample :
    breedingDueSoonCount
        (fun str => if str = "2024-06-10" then some 86400000 else none) 0
        [sampleBreedingRecord] =
      ([sampleBreedingRecord].filter (fun record =>
        decide (record.status = BreedingStatus.Pregnant) &&
        (match (fun str => if str = "2024-06-10" then some 86400000 else none)
            record.dueDate with
         | none => false
         | some t => decide ((0 : Int) ≤ t) && decide (t ≤ 0 + 14 * 86400000)))).length := by
  exact breedingDueSoonCount_characterization
    (fun str => if str = "2024-06-10" then some 86400000 else none) 0
    [sampleBreedingRecord] rfl

end AnimalManagement
